import Mathlib

/-!
Verification of `simple_password_generator/main.py`: a shallow embedding of
the `PasswordGenerator` class (character-set construction and `generate`)
and of the `CLI.run` control flow, together with theorems about them.

The only effectful ingredient of the generator is `secrets.choice`, which
draws one element of a sequence from the OS entropy source. We pass the
entropy in explicitly as a stream of natural numbers, one per password
position, so every definition is a pure function of its inputs.
-/

/-- Python `string.ascii_lowercase`. -/
def ascii_lowercase : List Char := "abcdefghijklmnopqrstuvwxyz".toList

/-- Python `string.ascii_uppercase`. -/
def ascii_uppercase : List Char := "ABCDEFGHIJKLMNOPQRSTUVWXYZ".toList

/-- Python `string.digits`. -/
def digits : List Char := "0123456789".toList

/-- Python `string.punctuation`: the 32 non-alphanumeric printable ASCII
characters, codes 33-47, 58-64, 91-96 and 123-126 in that order. -/
def punctuation : List Char :=
  [33, 34, 35, 36, 37, 38, 39, 40, 41, 42, 43, 44, 45, 46, 47,
   58, 59, 60, 61, 62, 63, 64,
   91, 92, 93, 94, 95, 96,
   123, 124, 125, 126].map Char.ofNat

/-- Models `PasswordGenerator._build_charset`: starts from the lowercase
letters and extends with the uppercase letters, the digits and the special
characters when the corresponding flag is set, in that order. -/
def build_charset (use_uppercase use_numbers use_special : Bool) : List Char :=
  let charset := ascii_lowercase
  let charset := if use_uppercase then charset ++ ascii_uppercase else charset
  let charset := if use_numbers then charset ++ digits else charset
  let charset := if use_special then charset ++ punctuation else charset
  charset

/-- Models `secrets.choice(seq)`: `secrets.randbelow(len(seq))` turns the OS
entropy into an index in `[0, len(seq))` and the element at that index is
returned. The raw entropy `r` is supplied by the caller; reduction modulo
the sequence length models the guarantee that the index is in range. -/
def secretsChoice (seq : List Char) (r : Nat) : Char :=
  seq.getD (r % seq.length) 'a'

/-- Models `PasswordGenerator.generate`: guards the empty character set and
`length < 1` by raising `ValueError` (an `Except.error` carrying the
message), then joins `length` independent draws from the character set.
`length` is an `Int` because a Python caller can pass a negative value. -/
def generate (use_uppercase use_numbers use_special : Bool)
    (length : Int) (entropy : Nat → Nat) : Except String (List Char) :=
  let charset := build_charset use_uppercase use_numbers use_special
  if charset.isEmpty then
    Except.error "Character set is empty. Enable at least one character type."
  else if length < 1 then
    Except.error "Password length must be at least 1."
  else
    Except.ok ((List.range length.toNat).map fun i => secretsChoice charset (entropy i))

/-- Parsed CLI arguments as returned by `CLI.parse_args`: the three
`no-*` switches are already negated into inclusion flags. -/
structure CliArgs where
  length : Int
  use_uppercase : Bool
  use_numbers : Bool
  use_special : Bool
  copy : Bool

/-- Observable outcome of `CLI.run`: the process exit code (0 when `run`
returns normally, 1 on `sys.exit(1)`), the password displayed on stdout if
one was generated, and the messages printed by `display_error` on stderr. -/
structure RunOutcome where
  exitCode : Nat
  password : Option (List Char)
  errors : List String
deriving DecidableEq

/-- Models `CLI.run`. The clipboard backend is passed in as the result of
`pyperclip.copy`; `Except.error exc` models a raised `PyperclipException`
whose message is `exc`, which `copy_to_clipboard` catches and reports via
`display_error` without aborting. -/
def cliRun (args : CliArgs) (entropy : Nat → Nat)
    (clipboard : Except String Unit) : RunOutcome :=
  if args.length < 1 then
    ⟨1, none, ["Password length must be at least 1."]⟩
  else
    match generate args.use_uppercase args.use_numbers args.use_special
        args.length entropy with
    | Except.error msg => ⟨1, none, [msg]⟩
    | Except.ok pw =>
      if args.copy then
        match clipboard with
        | Except.ok _ => ⟨0, some pw, []⟩
        | Except.error exc => ⟨0, some pw, ["Failed to copy to clipboard: " ++ exc]⟩
      else
        ⟨0, some pw, []⟩

/-! Helper lemmas shared by the claim theorems. -/

lemma build_charset_ne_nil (u n s : Bool) : build_charset u n s ≠ [] := by
  cases u <;> cases n <;> cases s <;> decide

lemma build_charset_not_isEmpty (u n s : Bool) :
    (build_charset u n s).isEmpty = false := by
  cases u <;> cases n <;> cases s <;> decide

lemma secretsChoice_mem (seq : List Char) (h : seq ≠ []) (r : Nat) :
    secretsChoice seq r ∈ seq := by
  have hlen : 0 < seq.length := List.length_pos.mpr h
  have hlt : r % seq.length < seq.length := Nat.mod_lt _ hlen
  unfold secretsChoice
  rw [List.getD_eq_getElem seq 'a' hlt]
  exact List.getElem_mem hlt

lemma generate_eq_ok (u n s : Bool) (len : Int) (entropy : Nat → Nat)
    (h : 1 ≤ len) :
    generate u n s len entropy =
      Except.ok ((List.range len.toNat).map fun i =>
        secretsChoice (build_charset u n s) (entropy i)) := by
  have hlt : ¬ (len < 1) := by omega
  simp [generate, build_charset_not_isEmpty, hlt]

lemma generate_eq_err (u n s : Bool) (len : Int) (entropy : Nat → Nat)
    (h : len < 1) :
    generate u n s len entropy =
      Except.error "Password length must be at least 1." := by
  simp [generate, build_charset_not_isEmpty, h]

lemma generate_ok_inv (u n s : Bool) (len : Int) (entropy : Nat → Nat)
    (pw : List Char) (hgen : generate u n s len entropy = Except.ok pw) :
    pw = (List.range len.toNat).map fun i =>
      secretsChoice (build_charset u n s) (entropy i) := by
  by_cases h : len < 1
  · rw [generate_eq_err u n s len entropy h] at hgen
    exact absurd hgen (by simp)
  · rw [generate_eq_ok u n s len entropy (by omega)] at hgen
    exact (Except.ok.inj hgen).symm

lemma generate_mem_charset (u n s : Bool) (len : Int) (entropy : Nat → Nat)
    (pw : List Char) (hgen : generate u n s len entropy = Except.ok pw) :
    ∀ c ∈ pw, c ∈ build_charset u n s := by
  intro c hc
  rw [generate_ok_inv u n s len entropy pw hgen] at hc
  simp only [List.mem_map] at hc
  obtain ⟨i, _, rfl⟩ := hc
  exact secretsChoice_mem _ (build_charset_ne_nil u n s) _

/-! The claim theorems. -/

/-- C1: for every length at least 1 and every combination of the three
flags, `generate(length)` succeeds and returns a string of exactly
`length` characters. -/
theorem generate_returns_exact_length (u n s : Bool) (len : Int)
    (entropy : Nat → Nat) (h : 1 ≤ len) :
    ∃ pw, generate u n s len entropy = Except.ok pw ∧ (pw.length : Int) = len := by
  refine ⟨_, generate_eq_ok u n s len entropy h, ?_⟩
  simp only [List.length_map, List.length_range]
  omega

/-- Witness for C1 at `length = 5` with all flags set. -/
theorem generate_returns_exact_length_witness :
    (1 : Int) ≤ 5 ∧
    ∃ pw, generate true true true 5 (fun _ => 0) = Except.ok pw ∧
      (pw.length : Int) = 5 :=
  ⟨by decide, generate_returns_exact_length true true true 5 (fun _ => 0) (by decide)⟩

lemma charset_no_upper (n s : Bool) :
    ∀ c ∈ build_charset false n s, c ∉ ascii_uppercase := by
  cases n <;> cases s <;> decide

lemma charset_no_digits (u s : Bool) :
    ∀ c ∈ build_charset u false s, c ∉ digits := by
  cases u <;> cases s <;> decide

lemma charset_no_punct (u n : Bool) :
    ∀ c ∈ build_charset u n false, c ∉ punctuation := by
  cases u <;> cases n <;> decide

/-- C2: every character of a generated password belongs to the alphabet of
the active flags; a disabled flag's pool never contributes a character, and
with all flags off and `length = 8` the output is an 8-character string of
lowercase letters only. -/
theorem generate_alphabet_membership (u n s : Bool) (len : Int)
    (entropy : Nat → Nat) (pw : List Char)
    (hgen : generate u n s len entropy = Except.ok pw) :
    (∀ c ∈ pw, c ∈ build_charset u n s) ∧
    (u = false → ∀ c ∈ pw, c ∉ ascii_uppercase) ∧
    (n = false → ∀ c ∈ pw, c ∉ digits) ∧
    (s = false → ∀ c ∈ pw, c ∉ punctuation) ∧
    (u = false → n = false → s = false → len = 8 →
      pw.length = 8 ∧ ∀ c ∈ pw, c ∈ ascii_lowercase) := by
  have hmem := generate_mem_charset u n s len entropy pw hgen
  refine ⟨hmem, ?_, ?_, ?_, ?_⟩
  · rintro rfl c hc
    exact charset_no_upper n s c (hmem c hc)
  · rintro rfl c hc
    exact charset_no_digits u s c (hmem c hc)
  · rintro rfl c hc
    exact charset_no_punct u n c (hmem c hc)
  · rintro rfl rfl rfl rfl
    refine ⟨?_, fun c hc => ?_⟩
    · rw [generate_ok_inv false false false 8 entropy pw hgen]
      simp only [List.length_map, List.length_range]
      decide
    · have : ∀ c ∈ build_charset false false false, c ∈ ascii_lowercase := by decide
      exact this c (hmem c hc)

/-- Witness for C2: all flags off, `length = 8`, zero entropy stream. -/
theorem generate_alphabet_membership_witness :
    generate false false false 8 (fun _ => 0) = Except.ok ("aaaaaaaa".toList) ∧
    ("aaaaaaaa".toList).length = 8 :=
  ⟨rfl,
   ((generate_alphabet_membership false false false 8 (fun _ => 0)
      ("aaaaaaaa".toList) rfl).2.2.2.2 rfl rfl rfl rfl).1⟩

/-- C3: for every length below 1 and every flag combination, `generate`
raises the invalid-length `ValueError` and produces no password, and
`CLI.run` reports the validation failure and exits with code 1 before any
generation occurs. -/
theorem invalid_length_rejected (u n s cp : Bool) (len : Int)
    (entropy : Nat → Nat) (clipboard : Except String Unit) (h : len < 1) :
    generate u n s len entropy =
      Except.error "Password length must be at least 1." ∧
    cliRun ⟨len, u, n, s, cp⟩ entropy clipboard =
      ⟨1, none, ["Password length must be at least 1."]⟩ := by
  refine ⟨generate_eq_err u n s len entropy h, ?_⟩
  simp [cliRun, h]

/-- Witness for C3 at `length = 0`. -/
theorem invalid_length_rejected_witness :
    (0 : Int) < 1 ∧
    generate true true true 0 (fun _ => 0) =
      Except.error "Password length must be at least 1." ∧
    cliRun ⟨0, true, true, true, true⟩ (fun _ => 0) (Except.ok ()) =
      ⟨1, none, ["Password length must be at least 1."]⟩ :=
  ⟨by decide,
   invalid_length_rejected true true true true 0 (fun _ => 0) (Except.ok ()) (by decide)⟩

/-- C4: for every flag combination the constructed alphabet contains all 26
lowercase letters, hence is non-empty. -/
theorem charset_contains_lowercase (u n s : Bool) :
    (∀ c ∈ ascii_lowercase, c ∈ build_charset u n s) ∧
    build_charset u n s ≠ [] := by
  refine ⟨?_, build_charset_ne_nil u n s⟩
  cases u <;> cases n <;> cases s <;> decide

/-- C5: the alphabet is exactly the concatenation, in the fixed order
lowercase, uppercase (if flagged), digits (if flagged), special symbols
(if flagged), and no character occurs twice in it. -/
theorem charset_order_and_nodup (u n s : Bool) :
    build_charset u n s =
      ascii_lowercase ++ (if u then ascii_uppercase else []) ++
        (if n then digits else []) ++ (if s then punctuation else []) ∧
    (build_charset u n s).Nodup := by
  cases u <;> cases n <;> cases s <;> exact ⟨by decide, by decide⟩

/-- C6: the empty-alphabet guard at the top of `generate` is dead code: the
character set is non-empty for every flag combination, so `generate` never
returns the empty-character-set `ValueError`. -/
theorem empty_charset_guard_unreachable (u n s : Bool) (len : Int)
    (entropy : Nat → Nat) :
    build_charset u n s ≠ [] ∧
    generate u n s len entropy ≠
      Except.error "Character set is empty. Enable at least one character type." := by
  refine ⟨build_charset_ne_nil u n s, ?_⟩
  by_cases h : len < 1
  · rw [generate_eq_err u n s len entropy h]
    intro hc
    have hmsg := Except.error.inj hc
    exact absurd hmsg (by decide)
  · rw [generate_eq_ok u n s len entropy (by omega)]
    exact fun hc => Except.noConfusion hc

/-- C7: with all three flags enabled the alphabet has exactly 94 characters
(26 lowercase, 26 uppercase, 10 digits, 32 punctuation), and `generate(12)`
returns a 12-character string drawn only from that alphabet. -/
theorem all_flags_charset_size_and_generate12 :
    (build_charset true true true).length = 94 ∧
    ∀ entropy : Nat → Nat, ∃ pw,
      generate true true true 12 entropy = Except.ok pw ∧
      pw.length = 12 ∧ ∀ c ∈ pw, c ∈ build_charset true true true := by
  refine ⟨by decide, fun entropy => ?_⟩
  refine ⟨_, generate_eq_ok true true true 12 entropy (by decide), ?_, ?_⟩
  · simp only [List.length_map, List.length_range]
    decide
  · exact generate_mem_charset true true true 12 entropy _
      (generate_eq_ok true true true 12 entropy (by decide))

/-- C9: when generation succeeded, a clipboard failure is caught and
reported on stderr without aborting: the exit code is 0 for every clipboard
outcome, and on failure the password is still displayed together with the
non-fatal clipboard error message. -/
theorem clipboard_failure_nonfatal (u n s : Bool) (len : Int)
    (entropy : Nat → Nat) (exc : String) (h : 1 ≤ len) :
    (∀ clipboard, (cliRun ⟨len, u, n, s, true⟩ entropy clipboard).exitCode = 0) ∧
    ∃ pw, cliRun ⟨len, u, n, s, true⟩ entropy (Except.error exc) =
      ⟨0, some pw, ["Failed to copy to clipboard: " ++ exc]⟩ := by
  have hok := generate_eq_ok u n s len entropy h
  have hlt : ¬ (len < 1) := by omega
  constructor
  · intro clipboard
    cases clipboard <;> simp [cliRun, hlt, hok]
  · refine ⟨(List.range len.toNat).map fun i =>
      secretsChoice (build_charset u n s) (entropy i), ?_⟩
    simp [cliRun, hlt, hok]

/-- Witness for C9 at `length = 12` with a failing clipboard backend. -/
theorem clipboard_failure_nonfatal_witness :
    (1 : Int) ≤ 12 ∧
    ((∀ clipboard,
        (cliRun ⟨12, true, true, true, true⟩ (fun _ => 0) clipboard).exitCode = 0) ∧
      ∃ pw, cliRun ⟨12, true, true, true, true⟩ (fun _ => 0) (Except.error "no backend") =
        ⟨0, some pw, ["Failed to copy to clipboard: " ++ "no backend"]⟩) :=
  ⟨by decide,
   clipboard_failure_nonfatal true true true 12 (fun _ => 0) "no backend" (by decide)⟩

lemma charset_no_whitespace (u n s : Bool) :
    ∀ c ∈ build_charset u n s, c.isWhitespace = false ∧ c ≠ ' ' := by
  cases u <;> cases n <;> cases s <;> decide

/-- C10: no character of a generated password is whitespace; in particular
the space character never occurs, since none of the four pools contains
whitespace. -/
theorem no_whitespace_in_password (u n s : Bool) (len : Int)
    (entropy : Nat → Nat) (pw : List Char)
    (hgen : generate u n s len entropy = Except.ok pw) :
    ∀ c ∈ pw, c.isWhitespace = false ∧ c ≠ ' ' := fun c hc =>
  charset_no_whitespace u n s c
    (generate_mem_charset u n s len entropy pw hgen c hc)

/-- Witness for C10: all flags off, `length = 5`, zero entropy stream, and
the first password character. -/
theorem no_whitespace_in_password_witness :
    Char.isWhitespace 'a' = false ∧ 'a' ≠ ' ' :=
  no_whitespace_in_password false false false 5 (fun _ => 0)
    ("aaaaa".toList) rfl 'a' (by decide)
